import Mathlib

/-!
Shallow embedding of `src/main.py`: a logging decorator (`logger`), a
currency-rate fetch routine (`get_currencies`) and a quadratic solver
(`solve_quadratic`), together with proofs of the specification claims.

Modelling conventions:
* Python runtime values that flow into `isinstance` checks are modelled by
  `PyVal`; `PyVal.bool` is kept distinct from `PyVal.num` because Python's
  `bool` is a subclass of `int`, so `isinstance(True, (int, float))` is true.
* Python numbers (`int`/`float`) are modelled by `ℚ`.  Every concrete input
  appearing in the claims keeps all intermediate values exactly representable
  in binary floating point, so the rational model agrees with the Python
  execution on those inputs.
* Exceptions are modelled by `Except PyError`; the wrapper re-raises via the
  `Except.error` constructor, which preserves the error value (kind, message
  and cause chain) exactly.
* Side effects on log destinations are modelled as an output trace
  `List Emission`, in emission order: a call to `handle.write line` becomes
  `Emission.streamWrite line` and a call to a `logging.Logger` method becomes
  `Emission.levelWrite level msg`.
-/

/-- Severity levels of the Python `logging` module used by `main.py`. -/
inductive LogLevel where
  | debug
  | info
  | warning
  | error
  | critical
deriving DecidableEq

/-- One write to a log destination: either a raw text write to a stream
(`handle.write`, the argument is the full text written, newline included) or a
leveled record sent to a `logging.Logger` method. -/
inductive Emission where
  | streamWrite (text : String)
  | levelWrite (level : LogLevel) (msg : String)
deriving DecidableEq

/-- Exceptions raised by the code in `main.py`, with their message argument. -/
inductive PyError where
  | typeError (msg : String)
  | valueError (msg : String)
  | keyError (msg : String)
  | connectionError (msg : String)
  | zeroDivisionError (msg : String)
deriving DecidableEq

/-- Python `type(e).__name__` for each modelled exception. -/
def PyError.typeName : PyError → String
  | .typeError _ => "TypeError"
  | .valueError _ => "ValueError"
  | .keyError _ => "KeyError"
  | .connectionError _ => "ConnectionError"
  | .zeroDivisionError _ => "ZeroDivisionError"

/-- Python `str(e)` (what `f"{e}"` interpolates).  For `KeyError` Python
renders the `repr` of the argument, so the message comes out wrapped in
single quotes; for the other exception types it is the message itself. -/
def PyError.toStr : PyError → String
  | .keyError m => "\x27" ++ m ++ "\x27"
  | .typeError m => m
  | .valueError m => m
  | .connectionError m => m
  | .zeroDivisionError m => m

/-- Python runtime values passed as coefficients or stored as rate values. -/
inductive PyVal where
  | num (q : ℚ)
  | bool (b : Bool)
  | str (s : String)
  | none
deriving DecidableEq

/-- Model of `isinstance(value, (int, float))`.  Crucially, Python's `bool`
is a subclass of `int`, so booleans pass this check. -/
def PyVal.isNumeric : PyVal → Bool
  | .num _ => true
  | .bool _ => true
  | .str _ => false
  | .none => false

/-- Numeric value of a `PyVal` that passed the `isinstance` check
(`True` behaves as `1` and `False` as `0` in Python arithmetic).  The
non-numeric branches are never reached after the check; they map to `0`. -/
def PyVal.toRat : PyVal → ℚ
  | .num q => q
  | .bool b => if b then 1 else 0
  | .str _ => 0
  | .none => 0

/-- Model of Python `str(value)` for the log message interpolations.
Integral rationals print as the integer, as Python ints do; no claim
depends on the exact rendering of non-integral numbers. -/
def PyVal.pstr : PyVal → String
  | .num q => if q.den = 1 then toString q.num else toString q
  | .bool b => if b then "True" else "False"
  | .str s => s
  | .none => "None"

/-- Destination accepted by the decorator's `handle` argument: either a
text stream such as `sys.stdout` or an `io.StringIO`, or a
`logging.Logger`. -/
inductive Handle where
  | stream
  | leveled
deriving DecidableEq

/-- Model of `isinstance(handle, logging.Logger)`, computed once at wrap
time (`is_logger` in the source). -/
def Handle.isLogger : Handle → Bool
  | .stream => false
  | .leveled => true

/-- Emit one message to a handle the way `wrapper` does: a `logging.Logger`
receives the message through the method for `level`, a stream receives
`msg + "\n"` through `write`. -/
def Handle.emit (handle : Handle) (level : LogLevel) (msg : String) : Emission :=
  if handle.isLogger then Emission.levelWrite level msg
  else Emission.streamWrite (msg ++ "\n")

/-- An operation that the decorator can wrap: its `__name__`, the renderings
Python produces for the argument tuple `args`, the keyword dict `kwargs` and
the result (`f"{args}"`, `f"{kwargs}"`, `f"{result}"`), and the behaviour
itself, returning a result or an exception together with the trace of log
emissions the body performs. -/
structure Op (α β : Type) where
  name : String
  reprArgs : α → String
  reprKwargs : α → String
  reprRes : β → String
  impl : α → Except PyError β × List Emission

/-- Body of the decorator's inner `wrapper` function from `main.py`:
log `START`, call `func`, then log either `ERROR in` and re-raise, or
`END` and return the result unchanged. -/
def wrapper {α β : Type} (func : Op α β) (handle : Handle) (a : α) :
    Except PyError β × List Emission :=
  let msg_start := "START " ++ func.name ++ " args=" ++ func.reprArgs a ++
    ", kwargs=" ++ func.reprKwargs a
  match func.impl a with
  | (Except.error e, bodyTrace) =>
    let msg_err := "ERROR in " ++ func.name ++ ": " ++ e.typeName ++ ": " ++ e.toStr
    (Except.error e,
      handle.emit LogLevel.info msg_start :: (bodyTrace ++ [handle.emit LogLevel.error msg_err]))
  | (Except.ok r, bodyTrace) =>
    let msg_end := "END " ++ func.name ++ " result=" ++ func.reprRes r
    (Except.ok r,
      handle.emit LogLevel.info msg_start :: (bodyTrace ++ [handle.emit LogLevel.info msg_end]))

/-- The decorator `logger` from `main.py`: wrapping produces a new operation
whose behaviour is `wrapper`; `functools.wraps` copies the original
`__name__` (and metadata) onto the wrapper, which the `name` field records.
Construction performs no emission: calling the returned operation is the
only way an event is produced. -/
def logger {α β : Type} (func : Op α β) (handle : Handle) : Op α β :=
  ⟨func.name, func.reprArgs, func.reprKwargs, func.reprRes,
    fun a => wrapper func handle a⟩

/-- Decidable equality for `Except`, used to evaluate the embedding on
concrete inputs. -/
instance {ε α : Type} [DecidableEq ε] [DecidableEq α] : DecidableEq (Except ε α) := fun x y =>
  match x, y with
  | Except.ok a, Except.ok b =>
    if h : a = b then Decidable.isTrue (by rw [h]) else
      Decidable.isFalse (by intro hc; cases hc; exact h rfl)
  | Except.error a, Except.error b =>
    if h : a = b then Decidable.isTrue (by rw [h]) else
      Decidable.isFalse (by intro hc; cases hc; exact h rfl)
  | Except.ok _, Except.error _ => Decidable.isFalse (by intro hc; cases hc)
  | Except.error _, Except.ok _ => Decidable.isFalse (by intro hc; cases hc)

/-- Helper: the wrapper returns exactly what the body returned — the value on
success and the very same error on failure. -/
theorem wrapper_fst {α β : Type} (func : Op α β) (handle : Handle) (a : α) :
    (wrapper func handle a).fst = (func.impl a).fst := by
  unfold wrapper
  rcases h : func.impl a with ⟨res, tr⟩
  cases res <;> simp [h]

/-- State of the exchange-rate feed as observed by `get_currencies`:
whether `requests.get` + `raise_for_status` succeed, whether the body parses
as JSON, whether the top-level key `"Valute"` is present, and for each
currency code present under `"Valute"`, the result of `.get("Value")` on its
record (`PyVal.none` when the `"Value"` key is absent, mirroring Python's
`dict.get` default). -/
structure Feed where
  reachable : Bool
  validJson : Bool
  hasValute : Bool
  valute : List (String × PyVal)

/-- Lookup of `code` in the `"Valute"` mapping (`code in data["Valute"]`
followed by `data["Valute"][code].get("Value")`). -/
def Feed.lookup (feed : Feed) (code : String) : Option PyVal :=
  (feed.valute.find? (fun p => p.fst == code)).map Prod.snd

/-- The `for code in currency_codes` loop of `get_currencies`: the first
failing code aborts the whole call with its exception; otherwise the rate
values are collected in request order. -/
def getCurrenciesLoop (feed : Feed) : List String → Except PyError (List (String × PyVal))
  | [] => Except.ok []
  | code :: rest =>
    match feed.lookup code with
    | Option.none => Except.error (PyError.keyError ("Валюта " ++ code ++ " отсутствует в данных"))
    | Option.some value =>
      if value.isNumeric then
        (getCurrenciesLoop feed rest).map (fun r => (code, value) :: r)
      else
        Except.error (PyError.typeError ("Курс валюты " ++ code ++ " имеет неверный тип"))

/-- The function `get_currencies` from `main.py`, with the network and JSON
layer abstracted into a `Feed`: connectivity failure raises
`ConnectionError("API недоступен")`, an unparsable body raises
`ValueError("Некорректный JSON")`, a missing top-level `"Valute"` key raises
`KeyError("Нет ключа 'Valute'")`, and then each requested code is resolved in
order by `getCurrenciesLoop`. -/
def get_currencies (currency_codes : List String) (feed : Feed) :
    Except PyError (List (String × PyVal)) :=
  if !feed.reachable then Except.error (PyError.connectionError "API недоступен")
  else if !feed.validJson then Except.error (PyError.valueError "Некорректный JSON")
  else if !feed.hasValute then Except.error (PyError.keyError "Нет ключа \x27Valute\x27")
  else getCurrenciesLoop feed currency_codes

/-- Python true division between numbers: raises `ZeroDivisionError` when the
divisor is zero.  In `solve_quadratic` the dividend at the only reachable
zero-divisor site is a `float` (`-b ± math.sqrt(d)`), so the Python message
is `"float division by zero"`. -/
def pydiv (x y : ℚ) : Except PyError ℚ :=
  if y = 0 then Except.error (PyError.zeroDivisionError "float division by zero")
  else Except.ok (x / y)

/-- Model of `math.sqrt` restricted to the exact cases: on a perfect-square
rational it returns the exact square root.  `solve_quadratic` only calls it
on a positive discriminant, and every claim either fixes a perfect-square
discriminant or treats the root symbolically. -/
def msqrt (q : ℚ) : ℚ := (Nat.sqrt q.num.toNat : ℚ) / (Nat.sqrt q.den : ℚ)

/-- Body of `solve_quadratic` from `main.py` (the function wrapped by
`@logger(handle=quad_logger)`): validate coefficient types in order
`a`, `b`, `c`; reject the degenerate `a == 0 and b == 0` equation; then
branch on the discriminant, logging to `quad_logger` at each step.  The
returned trace lists the body's own `quad_logger` calls in order. -/
def solve_quadratic_body (a b c : PyVal) :
    Except PyError (Option (List ℚ)) × List Emission :=
  if !a.isNumeric then
    (Except.error (PyError.typeError "Coefficient \x27a\x27 must be numeric"),
      [Emission.levelWrite LogLevel.error ("Invalid type for \x27a\x27: " ++ a.pstr)])
  else if !b.isNumeric then
    (Except.error (PyError.typeError "Coefficient \x27b\x27 must be numeric"),
      [Emission.levelWrite LogLevel.error ("Invalid type for \x27b\x27: " ++ b.pstr)])
  else if !c.isNumeric then
    (Except.error (PyError.typeError "Coefficient \x27c\x27 must be numeric"),
      [Emission.levelWrite LogLevel.error ("Invalid type for \x27c\x27: " ++ c.pstr)])
  else
    let an := a.toRat
    let bn := b.toRat
    let cn := c.toRat
    if an = 0 ∧ bn = 0 then
      (Except.error (PyError.valueError "Invalid quadratic equation"),
        [Emission.levelWrite LogLevel.critical "Impossible equation: a = 0 and b = 0"])
    else
      let d := bn * bn - 4 * an * cn
      let dbg := Emission.levelWrite LogLevel.debug
        ("Discriminant = " ++ (PyVal.num d).pstr)
      if d < 0 then
        (Except.ok Option.none,
          [dbg, Emission.levelWrite LogLevel.warning "Discriminant < 0: no real roots"])
      else if d = 0 then
        match pydiv (-bn) (2 * an) with
        | Except.error e => (Except.error e, [dbg])
        | Except.ok x =>
          (Except.ok (Option.some [x]),
            [dbg, Emission.levelWrite LogLevel.info "One real root"])
      else
        match pydiv (-bn + msqrt d) (2 * an) with
        | Except.error e => (Except.error e, [dbg])
        | Except.ok x1 =>
          match pydiv (-bn - msqrt d) (2 * an) with
          | Except.error e => (Except.error e, [dbg])
          | Except.ok x2 =>
            (Except.ok (Option.some [x1, x2]),
              [dbg, Emission.levelWrite LogLevel.info "Two real roots computed"])

/-- Python `repr` of a value inside an argument tuple (`repr` quotes
strings, unlike `str`). -/
def PyVal.prepr : PyVal → String
  | .str s => "\x27" ++ s ++ "\x27"
  | v => v.pstr

/-- Rendering of the result of `solve_quadratic`: `None` or a Python tuple
of one or two floats. -/
def quadResStr : Option (List ℚ) → String
  | Option.none => "None"
  | Option.some [x] => "(" ++ (PyVal.num x).pstr ++ ",)"
  | Option.some l => "(" ++ String.intercalate ", " (l.map (fun x => (PyVal.num x).pstr)) ++ ")"

/-- The operation `solve_quadratic` presents to the decorator: name
`"solve_quadratic"`, three positional arguments, empty kwargs. -/
def solve_quadratic_op : Op (PyVal × PyVal × PyVal) (Option (List ℚ)) :=
  ⟨"solve_quadratic",
    fun t => "(" ++ t.fst.prepr ++ ", " ++ t.snd.fst.prepr ++ ", " ++ t.snd.snd.prepr ++ ")",
    fun _ => "\x7b\x7d",
    quadResStr,
    fun t => solve_quadratic_body t.fst t.snd.fst t.snd.snd⟩

/-- The decorated `solve_quadratic` of `main.py`: the body wrapped by
`logger` with `handle = quad_logger`, a `logging.Logger`.  Roots are listed
in the order the tuple is built: `(x1, x2)` with `x1` the `+sqrt` root. -/
def solve_quadratic (a b c : PyVal) :
    Except PyError (Option (List ℚ)) × List Emission :=
  (logger solve_quadratic_op Handle.leveled).impl (a, b, c)

/-- Helper: the last element of the trace shape produced by the wrapper. -/
theorem getLast?_sandwich {γ : Type} (x y : γ) (l : List γ) :
    (x :: (l ++ [y])).getLast? = some y := by
  rw [show x :: (l ++ [y]) = (x :: l) ++ [y] by simp, List.getLast?_append_cons]
  rfl

/-- The successful operation of the test-suite (`test_func(x): return x * 2`),
used to exercise the wrapper theorems on a concrete input. -/
def test_func_op : Op Nat Nat :=
  ⟨"test_func", fun n => "(" ++ toString n ++ ",)", fun _ => "\x7b\x7d",
    fun r => toString r, fun n => (Except.ok (n * 2), [])⟩

/-- The failing operation of the test-suite (`test_func(x): raise
ValueError("boom")`). -/
def boom_op : Op Nat Nat :=
  ⟨"test_func", fun n => "(" ++ toString n ++ ",)", fun _ => "\x7b\x7d",
    fun r => toString r, fun _ => (Except.error (PyError.valueError "boom"), [])⟩

/-- C1.  Transparency of the wrapper: whenever the operation returns a value
without failing, the wrapped operation returns exactly the same value — no
coercion of the result, and the arguments are handed to the operation
unchanged (the wrapped call evaluates `op.impl` at the very argument it
received). -/
theorem C1_wrapper_transparency {α β : Type} (op : Op α β) (handle : Handle) (a : α)
    (r : β) (trace : List Emission) (hok : op.impl a = (Except.ok r, trace)) :
    ((logger op handle).impl a).fst = Except.ok r := by
  show (wrapper op handle a).fst = _
  rw [wrapper_fst, hok]

/-- Witness for C1 at the test-suite call `test_func(4) == 8`. -/
theorem C1_wrapper_transparency_witness :
    ((logger test_func_op Handle.stream).impl 4).fst = Except.ok 8 :=
  C1_wrapper_transparency test_func_op Handle.stream 4 8 [] rfl

/-- C2.  Error transparency of the wrapper: whenever the operation raises an
error, the wrapped operation raises the very same error value — same kind,
same message, nothing swallowed, downgraded or replaced. -/
theorem C2_error_transparency {α β : Type} (op : Op α β) (handle : Handle) (a : α)
    (e : PyError) (trace : List Emission) (herr : op.impl a = (Except.error e, trace)) :
    ((logger op handle).impl a).fst = Except.error e := by
  show (wrapper op handle a).fst = _
  rw [wrapper_fst, herr]

/-- Witness for C2 at the test-suite call raising `ValueError("boom")`. -/
theorem C2_error_transparency_witness :
    ((logger boom_op Handle.stream).impl 1).fst = Except.error (PyError.valueError "boom") :=
  C2_error_transparency boom_op Handle.stream 1 (PyError.valueError "boom") [] rfl

/-- C3.  Event ordering invariant: every invocation of a wrapped operation
emits exactly one Start event, as the head of the trace — strictly before
every side effect of the operation (the body's own emissions follow it) —
and exactly one terminal event, as the last element of the trace: a Success
event when the operation returns, and exclusively a Failure event when it
raises.  Wrapping itself (`logger`) is a pure construction, so no event
exists outside the per-invocation trace. -/
theorem C3_event_ordering {α β : Type} (op : Op α β) (handle : Handle) (a : α) :
    (∀ r trace, op.impl a = (Except.ok r, trace) →
      ((logger op handle).impl a).snd =
        handle.emit LogLevel.info ("START " ++ op.name ++ " args=" ++ op.reprArgs a ++
            ", kwargs=" ++ op.reprKwargs a) ::
          (trace ++ [handle.emit LogLevel.info ("END " ++ op.name ++ " result=" ++ op.reprRes r)])) ∧
    (∀ e trace, op.impl a = (Except.error e, trace) →
      ((logger op handle).impl a).snd =
        handle.emit LogLevel.info ("START " ++ op.name ++ " args=" ++ op.reprArgs a ++
            ", kwargs=" ++ op.reprKwargs a) ::
          (trace ++ [handle.emit LogLevel.error ("ERROR in " ++ op.name ++ ": " ++
            e.typeName ++ ": " ++ e.toStr)])) := by
  constructor <;> intro x trace hx <;>
    simp [logger, wrapper, hx]

/-- Witness for C3: the full trace of `test_func(4)` on a stream sink. -/
theorem C3_event_ordering_witness :
    ((logger test_func_op Handle.stream).impl 4).snd =
      [Emission.streamWrite "START test_func args=(4,), kwargs=\x7b\x7d\n",
       Emission.streamWrite "END test_func result=8\n"] := by
  have h := (C3_event_ordering test_func_op Handle.stream 4).1 8 [] rfl
  simpa [test_func_op, Handle.emit, Handle.isLogger] using h

/-- C4.  Event rendering formats: the Start event is rendered exactly as
`START <name> args=<args>, kwargs=<kwargs>`, a Success event exactly as
`END <name> result=<result>`, and a Failure event exactly as
`ERROR in <name>: <error_kind>: <error_message>` with `<error_kind>` the
error's type name and `<error_message>` its `str()` rendering, the same
message text for both sink variants (the stream variant writes the same
line followed by a newline). -/
theorem C4_event_formats {α β : Type} (op : Op α β) (a : α) :
    (((logger op Handle.stream).impl a).snd.head? =
        some (Emission.streamWrite ("START " ++ op.name ++ " args=" ++ op.reprArgs a ++
          ", kwargs=" ++ op.reprKwargs a ++ "\n")) ∧
     ((logger op Handle.leveled).impl a).snd.head? =
        some (Emission.levelWrite LogLevel.info ("START " ++ op.name ++ " args=" ++
          op.reprArgs a ++ ", kwargs=" ++ op.reprKwargs a))) ∧
    (∀ r trace, op.impl a = (Except.ok r, trace) →
      ((logger op Handle.stream).impl a).snd.getLast? =
        some (Emission.streamWrite ("END " ++ op.name ++ " result=" ++ op.reprRes r ++ "\n")) ∧
      ((logger op Handle.leveled).impl a).snd.getLast? =
        some (Emission.levelWrite LogLevel.info ("END " ++ op.name ++ " result=" ++ op.reprRes r))) ∧
    (∀ e trace, op.impl a = (Except.error e, trace) →
      ((logger op Handle.stream).impl a).snd.getLast? =
        some (Emission.streamWrite ("ERROR in " ++ op.name ++ ": " ++ e.typeName ++ ": " ++
          e.toStr ++ "\n")) ∧
      ((logger op Handle.leveled).impl a).snd.getLast? =
        some (Emission.levelWrite LogLevel.error ("ERROR in " ++ op.name ++ ": " ++
          e.typeName ++ ": " ++ e.toStr))) := by
  refine ⟨⟨?_, ?_⟩, fun r trace hok => ⟨?_, ?_⟩, fun e trace herr => ⟨?_, ?_⟩⟩
  · rcases h : op.impl a with ⟨res, tr⟩
    cases res <;> simp [logger, wrapper, h, Handle.emit, Handle.isLogger]
  · rcases h : op.impl a with ⟨res, tr⟩
    cases res <;> simp [logger, wrapper, h, Handle.emit, Handle.isLogger]
  · simp [logger, wrapper, hok, Handle.emit, Handle.isLogger, getLast?_sandwich]
  · simp [logger, wrapper, hok, Handle.emit, Handle.isLogger, getLast?_sandwich]
  · simp [logger, wrapper, herr, Handle.emit, Handle.isLogger, getLast?_sandwich]
  · simp [logger, wrapper, herr, Handle.emit, Handle.isLogger, getLast?_sandwich]

/-- Witness for C4: the terminal line of a failing call on a stream sink. -/
theorem C4_event_formats_witness :
    ((logger boom_op Handle.stream).impl 1).snd.getLast? =
      some (Emission.streamWrite "ERROR in test_func: ValueError: boom\n") := by
  have h := ((C4_event_formats boom_op 1).2.2 (PyError.valueError "boom") [] rfl).1
  simpa [boom_op, PyError.typeName, PyError.toStr] using h

/-- C6.  Idempotence of wrapping: wrapping an already-wrapped operation,
with any pair of sinks, leaves the observable outcome of every call — the
returned value or the raised error — exactly that of the original
operation.  (`functools.wraps` also keeps the original name through both
layers.) -/
theorem C6_wrapping_idempotent {α β : Type} (op : Op α β) (h1 h2 : Handle) (a : α) :
    ((logger (logger op h1) h2).impl a).fst = (op.impl a).fst ∧
    (logger (logger op h1) h2).name = op.name := by
  constructor
  · show (wrapper (logger op h1) h2 a).fst = _
    rw [wrapper_fst]
    show (wrapper op h1 a).fst = _
    rw [wrapper_fst]
  · rfl

/-- Observable text of an emission: the raw line for a stream write, the
message for a leveled record. -/
def Emission.text : Emission → String
  | .streamWrite t => t
  | .levelWrite _ m => m

/-- Observable severity of an emission: a stream write carries none. -/
def Emission.severity : Emission → Option LogLevel
  | .streamWrite _ => Option.none
  | .levelWrite lvl _ => Option.some lvl

/-- C7.  Sink polymorphism and severity mapping: the sink variant is chosen
once at wrap time from the runtime type of `handle` (`Handle.isLogger`); on
a leveled sink the wrapper emits Start at severity info, Success at severity
info and Failure at severity error, while on a stream sink the wrapper
writes, for the same invocation, exactly the same message text followed by a
newline, as one line per event — the code path is identical, only the
emission mechanism differs. -/
theorem C7_sink_polymorphism {α β : Type} (op : Op α β) (a : α) :
    (((logger op Handle.leveled).impl a).snd.head?.map Emission.severity =
        some (Option.some LogLevel.info)) ∧
    (∀ r trace, op.impl a = (Except.ok r, trace) →
      ((logger op Handle.leveled).impl a).snd.getLast?.map Emission.severity =
        some (Option.some LogLevel.info)) ∧
    (∀ e trace, op.impl a = (Except.error e, trace) →
      ((logger op Handle.leveled).impl a).snd.getLast?.map Emission.severity =
        some (Option.some LogLevel.error)) ∧
    (((logger op Handle.stream).impl a).snd.head?.map Emission.text =
      ((logger op Handle.leveled).impl a).snd.head?.map (fun ev => ev.text ++ "\n")) ∧
    (((logger op Handle.stream).impl a).snd.getLast?.map Emission.text =
      ((logger op Handle.leveled).impl a).snd.getLast?.map (fun ev => ev.text ++ "\n")) := by
  refine ⟨?_, fun r trace hok => ?_, fun e trace herr => ?_, ?_, ?_⟩
  · rcases h : op.impl a with ⟨res, tr⟩
    cases res <;>
      simp [logger, wrapper, h, Handle.emit, Handle.isLogger, Emission.severity]
  · simp [logger, wrapper, hok, Handle.emit, Handle.isLogger, getLast?_sandwich,
      Emission.severity]
  · simp [logger, wrapper, herr, Handle.emit, Handle.isLogger, getLast?_sandwich,
      Emission.severity]
  · rcases h : op.impl a with ⟨res, tr⟩
    cases res <;>
      simp [logger, wrapper, h, Handle.emit, Handle.isLogger, Emission.text]
  · rcases h : op.impl a with ⟨res, tr⟩
    cases res <;>
      simp [logger, wrapper, h, Handle.emit, Handle.isLogger, getLast?_sandwich,
        Emission.text]

/-- Witness for C7: the terminal event of `test_func(4)` on the leveled sink
carries severity info. -/
theorem C7_sink_polymorphism_witness :
    ((logger test_func_op Handle.leveled).impl 4).snd.getLast?.map Emission.severity =
      some (Option.some LogLevel.info) :=
  (C7_sink_polymorphism test_func_op 4).2.1 8 [] rfl

/-- C5.  Quadratic solver boundary cases: `solve_quadratic(1,-3,2)` returns
the two roots `(2.0, 1.0)`; `solve_quadratic(1,1,10)` returns `None`
(negative discriminant, not an error); `solve_quadratic(1,-2,1)` returns the
single-root tuple `(1.0,)`; `solve_quadratic(0,0,5)` raises
`ValueError("Invalid quadratic equation")`; `solve_quadratic("abc",2,3)`
raises `TypeError("Coefficient 'a' must be numeric")`; and for every
positive discriminant the two roots come in the order `(+root, -root)` of
the standard closed form. -/
theorem C5_quadratic_boundary :
    ((solve_quadratic (PyVal.num 1) (PyVal.num (-3)) (PyVal.num 2)).fst =
      Except.ok (Option.some [2, 1])) ∧
    ((solve_quadratic (PyVal.num 1) (PyVal.num 1) (PyVal.num 10)).fst =
      Except.ok Option.none) ∧
    ((solve_quadratic (PyVal.num 1) (PyVal.num (-2)) (PyVal.num 1)).fst =
      Except.ok (Option.some [1])) ∧
    ((solve_quadratic (PyVal.num 0) (PyVal.num 0) (PyVal.num 5)).fst =
      Except.error (PyError.valueError "Invalid quadratic equation")) ∧
    ((solve_quadratic (PyVal.str "abc") (PyVal.num 2) (PyVal.num 3)).fst =
      Except.error (PyError.typeError "Coefficient \x27a\x27 must be numeric")) ∧
    (∀ a b c : ℚ, a ≠ 0 → 0 < b * b - 4 * a * c →
      (solve_quadratic (PyVal.num a) (PyVal.num b) (PyVal.num c)).fst =
        Except.ok (Option.some
          [(-b + msqrt (b * b - 4 * a * c)) / (2 * a),
           (-b - msqrt (b * b - 4 * a * c)) / (2 * a)])) := by
  refine ⟨?_, ?_, ?_, ?_, ?_, ?_⟩
  · norm_num [solve_quadratic, logger, wrapper, solve_quadratic_op, solve_quadratic_body,
      PyVal.isNumeric, PyVal.toRat, msqrt, pydiv]
  · norm_num [solve_quadratic, logger, wrapper, solve_quadratic_op, solve_quadratic_body,
      PyVal.isNumeric, PyVal.toRat, msqrt, pydiv]
  · norm_num [solve_quadratic, logger, wrapper, solve_quadratic_op, solve_quadratic_body,
      PyVal.isNumeric, PyVal.toRat, msqrt, pydiv]
  · norm_num [solve_quadratic, logger, wrapper, solve_quadratic_op, solve_quadratic_body,
      PyVal.isNumeric, PyVal.toRat, msqrt, pydiv]
  · norm_num [solve_quadratic, logger, wrapper, solve_quadratic_op, solve_quadratic_body,
      PyVal.isNumeric, PyVal.toRat, msqrt, pydiv]
  · intro a b c ha hd
    have h2a : (2 : ℚ) * a ≠ 0 := mul_ne_zero two_ne_zero ha
    show (wrapper solve_quadratic_op Handle.leveled (PyVal.num a, PyVal.num b, PyVal.num c)).fst = _
    rw [wrapper_fst]
    show (solve_quadratic_body (PyVal.num a) (PyVal.num b) (PyVal.num c)).fst = _
    simp [solve_quadratic_body, PyVal.isNumeric, PyVal.toRat, pydiv, ha, h2a,
      not_lt.mpr hd.le, hd.ne']

/-- Witness for C5 at the two-root instance `a=1, b=-3, c=2` of the general
positive-discriminant conjunct. -/
theorem C5_quadratic_boundary_witness :
    (solve_quadratic (PyVal.num 1) (PyVal.num (-3)) (PyVal.num 2)).fst =
      Except.ok (Option.some
        [(-(-3) + msqrt ((-3) * (-3) - 4 * 1 * 2)) / (2 * 1),
         (-(-3) - msqrt ((-3) * (-3) - 4 * 1 * 2)) / (2 * 1)]) :=
  C5_quadratic_boundary.2.2.2.2.2 1 (-3) 2 one_ne_zero (by norm_num)

/-- C9.  Linear-equation edge case: for `a = 0` and numeric `b ≠ 0` the
solver does not treat the input as a linear equation; it falls through to
the quadratic formula, divides by `2*a = 0` and raises `ZeroDivisionError`
instead of returning the linear root. -/
theorem C9_linear_falls_through (b c : ℚ) (hb : b ≠ 0) :
    (solve_quadratic (PyVal.num 0) (PyVal.num b) (PyVal.num c)).fst =
      Except.error (PyError.zeroDivisionError "float division by zero") := by
  have hbb : 0 < b * b := mul_self_pos.mpr hb
  have hd : b * b - 4 * (0 : ℚ) * c = b * b := by ring
  show (wrapper solve_quadratic_op Handle.leveled (PyVal.num 0, PyVal.num b, PyVal.num c)).fst = _
  rw [wrapper_fst]
  show (solve_quadratic_body (PyVal.num 0) (PyVal.num b) (PyVal.num c)).fst = _
  simp [solve_quadratic_body, PyVal.isNumeric, PyVal.toRat, pydiv, hb, hd,
    not_lt.mpr hbb.le, hbb.ne']

/-- Witness for C9 at `b = 1, c = 5` (the modified `solve(0, 1, 5)`). -/
theorem C9_linear_falls_through_witness :
    (solve_quadratic (PyVal.num 0) (PyVal.num 1) (PyVal.num 5)).fst =
      Except.error (PyError.zeroDivisionError "float division by zero") :=
  C9_linear_falls_through 1 5 one_ne_zero

/-- C10.  Booleans pass the numeric `isinstance` checks: a `True`/`False`
coefficient behaves exactly like `1`/`0` in `solve_quadratic` (no
type-mismatch failure), in every coefficient position, and `get_currencies`
accepts a boolean rate value as a valid numeric rate instead of raising
`TypeError`. -/
theorem C10_bool_passes_numeric_checks :
    (∀ (bb : Bool) (x y : PyVal),
      (solve_quadratic (PyVal.bool bb) x y).fst =
        (solve_quadratic (PyVal.num (if bb then 1 else 0)) x y).fst) ∧
    (∀ (bb : Bool) (x y : PyVal),
      (solve_quadratic x (PyVal.bool bb) y).fst =
        (solve_quadratic x (PyVal.num (if bb then 1 else 0)) y).fst) ∧
    (∀ (bb : Bool) (x y : PyVal),
      (solve_quadratic x y (PyVal.bool bb)).fst =
        (solve_quadratic x y (PyVal.num (if bb then 1 else 0))).fst) ∧
    (∀ (code : String) (bb : Bool) (feed : Feed),
      feed.reachable = true → feed.validJson = true → feed.hasValute = true →
      feed.lookup code = Option.some (PyVal.bool bb) →
      get_currencies [code] feed = Except.ok [(code, PyVal.bool bb)]) := by
  refine ⟨?_, ?_, ?_, ?_⟩
  · intro bb x y
    show (wrapper solve_quadratic_op Handle.leveled (PyVal.bool bb, x, y)).fst = _
    rw [wrapper_fst]
    show (solve_quadratic_body (PyVal.bool bb) x y).fst =
      (solve_quadratic (PyVal.num (if bb then 1 else 0)) x y).fst
    rw [show (solve_quadratic (PyVal.num (if bb then 1 else 0)) x y).fst =
        (solve_quadratic_body (PyVal.num (if bb then 1 else 0)) x y).fst from
      wrapper_fst solve_quadratic_op Handle.leveled (PyVal.num (if bb then 1 else 0), x, y)]
    cases bb <;> rfl
  · intro bb x y
    show (wrapper solve_quadratic_op Handle.leveled (x, PyVal.bool bb, y)).fst = _
    rw [wrapper_fst]
    show (solve_quadratic_body x (PyVal.bool bb) y).fst =
      (solve_quadratic x (PyVal.num (if bb then 1 else 0)) y).fst
    rw [show (solve_quadratic x (PyVal.num (if bb then 1 else 0)) y).fst =
        (solve_quadratic_body x (PyVal.num (if bb then 1 else 0)) y).fst from
      wrapper_fst solve_quadratic_op Handle.leveled (x, PyVal.num (if bb then 1 else 0), y)]
    cases bb <;> rfl
  · intro bb x y
    show (wrapper solve_quadratic_op Handle.leveled (x, y, PyVal.bool bb)).fst = _
    rw [wrapper_fst]
    show (solve_quadratic_body x y (PyVal.bool bb)).fst =
      (solve_quadratic x y (PyVal.num (if bb then 1 else 0))).fst
    rw [show (solve_quadratic x y (PyVal.num (if bb then 1 else 0))).fst =
        (solve_quadratic_body x y (PyVal.num (if bb then 1 else 0))).fst from
      wrapper_fst solve_quadratic_op Handle.leveled (x, y, PyVal.num (if bb then 1 else 0))]
    cases bb <;> rfl
  · intro code bb feed h1 h2 h3 hl
    simp [get_currencies, h1, h2, h3, getCurrenciesLoop, hl, PyVal.isNumeric, Except.map]

/-- Witness for C10: a feed whose `"USD"` rate value is the boolean `True`
is accepted and returned as the rate. -/
theorem C10_bool_passes_numeric_checks_witness :
    get_currencies ["USD"] ⟨true, true, true, [("USD", PyVal.bool true)]⟩ =
      Except.ok [("USD", PyVal.bool true)] :=
  C10_bool_passes_numeric_checks.2.2.2 "USD" true
    ⟨true, true, true, [("USD", PyVal.bool true)]⟩ rfl rfl rfl rfl

/-- C8.  Currency fetch error contract: an unreachable endpoint raises
`ConnectionError("API недоступен")`; a requested code absent from the feed
raises `KeyError("Валюта <code> отсутствует в данных")`; a rate value
present but non-numeric raises `TypeError("Курс валюты <code> имеет
неверный тип")`.  Each statement holds for an arbitrary remainder of the
request list: the first failure is terminal for the call, no retry and no
processing of later codes. -/
theorem C8_currency_fetch_errors :
    (∀ (codes : List String) (feed : Feed), feed.reachable = false →
      get_currencies codes feed =
        Except.error (PyError.connectionError "API недоступен")) ∧
    (∀ (code : String) (rest : List String) (feed : Feed),
      feed.reachable = true → feed.validJson = true → feed.hasValute = true →
      feed.lookup code = Option.none →
      get_currencies (code :: rest) feed =
        Except.error (PyError.keyError ("Валюта " ++ code ++ " отсутствует в данных"))) ∧
    (∀ (code : String) (rest : List String) (feed : Feed) (v : PyVal),
      feed.reachable = true → feed.validJson = true → feed.hasValute = true →
      feed.lookup code = Option.some v → v.isNumeric = false →
      get_currencies (code :: rest) feed =
        Except.error (PyError.typeError ("Курс валюты " ++ code ++ " имеет неверный тип"))) := by
  refine ⟨?_, ?_, ?_⟩
  · intro codes feed h1
    simp [get_currencies, h1]
  · intro code rest feed h1 h2 h3 hl
    simp [get_currencies, h1, h2, h3, getCurrenciesLoop, hl]
  · intro code rest feed v h1 h2 h3 hl hv
    simp [get_currencies, h1, h2, h3, getCurrenciesLoop, hl, hv]

/-- Witness for C8: the three failures at concrete feeds — unreachable
endpoint, missing code `XXX`, and a string-valued `USD` rate. -/
theorem C8_currency_fetch_errors_witness :
    (get_currencies ["USD"] ⟨false, true, true, []⟩ =
      Except.error (PyError.connectionError "API недоступен")) ∧
    (get_currencies ["XXX"] ⟨true, true, true, [("USD", PyVal.num 81)]⟩ =
      Except.error (PyError.keyError ("Валюта " ++ "XXX" ++ " отсутствует в данных"))) ∧
    (get_currencies ["USD"] ⟨true, true, true, [("USD", PyVal.str "n/a")]⟩ =
      Except.error (PyError.typeError ("Курс валюты " ++ "USD" ++ " имеет неверный тип"))) :=
  ⟨C8_currency_fetch_errors.1 ["USD"] ⟨false, true, true, []⟩ rfl,
   C8_currency_fetch_errors.2.1 "XXX" [] ⟨true, true, true, [("USD", PyVal.num 81)]⟩
     rfl rfl rfl rfl,
   C8_currency_fetch_errors.2.2 "USD" [] ⟨true, true, true, [("USD", PyVal.str "n/a")]⟩
     (PyVal.str "n/a") rfl rfl rfl rfl rfl⟩
